import Mathlib

/-!
Verification development for the Catch game of open_spiel
(`open_spiel/games/catch.h`).

Catch is a single-player game on a `rows × columns` grid: a chance move
places a ball in some column of the top row, then on each player turn the
paddle (sitting on the bottom row) moves left, stays, or moves right while
the ball descends one row; the episode ends when the ball reaches the
bottom row, with return +1 if the paddle is under the ball and -1
otherwise.

The repository file `catch.h` is a declaration-only header: the constants,
the two vector shapes, the utility bounds, `MaxGameLength` and
`MaxChanceOutcomes` are inline in the header and are embedded from it
directly.  The bodies of the `CatchState` methods (`DoApplyAction`,
`UndoAction`, `IsTerminal`, `Returns`, `LegalActions`, `ChanceOutcomes`,
`CurrentPlayer`, the constructor) live in an implementation unit that is
not part of the repository snapshot; those definitions are modelled from
the specification and are marked `Modelled from the spec:` in their doc
comments.

C++ `int` fields are embedded as `Int` (board geometry is tiny, overflow
is immaterial), `double` as `ℚ`.
-/

namespace OpenSpiel
namespace Catch

/-- Cell contents, from `catch.h` (enum `CellState`). -/
inductive CellState where
  | kEmpty
  | kBall
  | kPaddle
  deriving DecidableEq, Repr

/-- `kNumPlayers`, from `catch.h`. -/
def kNumPlayers : Int := 1

/-- `kNumActions`, from `catch.h`. -/
def kNumActions : Int := 3

/-- `kDefaultRows`, from `catch.h`. -/
def kDefaultRows : Int := 10

/-- `kDefaultColumns`, from `catch.h`. -/
def kDefaultColumns : Int := 5

/-- Modelled from the spec: the framework sentinel for the chance actor
(declared in the framework header `spiel.h`, which is not in the
repository snapshot). -/
def kChancePlayerId : Int := -1

/-- Modelled from the spec: the framework sentinel reported by terminal
states ("no actor"; declared in the framework header `spiel.h`, which is
not in the repository snapshot). -/
def kTerminalPlayerId : Int := -4

/-- The game configuration: `num_rows_` and `num_columns_` of `CatchGame`
in `catch.h`. -/
structure CatchGame where
  num_rows : Int
  num_columns : Int
  deriving DecidableEq, Repr

/-- `CatchGame::ObservationNormalizedVectorShape`, inline in `catch.h`:
`{num_rows_, num_columns_}`. -/
def CatchGame.ObservationNormalizedVectorShape (g : CatchGame) : List Int :=
  [g.num_rows, g.num_columns]

/-- `CatchGame::InformationStateNormalizedVectorShape`, inline in
`catch.h`: `{num_columns_ + kNumActions * num_rows_}`. -/
def CatchGame.InformationStateNormalizedVectorShape (g : CatchGame) : List Int :=
  [g.num_columns + kNumActions * g.num_rows]

/-- `CatchGame::NumDistinctActions`, inline in `catch.h`. -/
def CatchGame.NumDistinctActions (_ : CatchGame) : Int := kNumActions

/-- `CatchGame::MaxChanceOutcomes`, inline in `catch.h`. -/
def CatchGame.MaxChanceOutcomes (g : CatchGame) : Int := g.num_columns

/-- `CatchGame::NumPlayers`, inline in `catch.h`. -/
def CatchGame.NumPlayers (_ : CatchGame) : Int := kNumPlayers

/-- `CatchGame::MaxUtility`, inline in `catch.h`: returns 1. -/
def CatchGame.MaxUtility (_ : CatchGame) : ℚ := 1

/-- `CatchGame::MinUtility`, inline in `catch.h`: returns -1. -/
def CatchGame.MinUtility (_ : CatchGame) : ℚ := -1

/-- `CatchGame::MaxGameLength`, inline in `catch.h`: returns `num_rows_`. -/
def CatchGame.MaxGameLength (g : CatchGame) : Int := g.num_rows

/-- `CatchGame::NumRows`, inline in `catch.h`. -/
def CatchGame.NumRows (g : CatchGame) : Int := g.num_rows

/-- `CatchGame::NumColumns`, inline in `catch.h`. -/
def CatchGame.NumColumns (g : CatchGame) : Int := g.num_columns

/-- Modelled from the spec: the `CatchGame` constructor (implementation
unit not in the snapshot) validates its `rows`/`columns` parameters —
"non-positive `rows`/`columns` — fails at construction, never silently
clamped". -/
def CatchGame.construct (rows columns : Int) : Except String CatchGame :=
  if rows ≤ 0 ∨ columns ≤ 0 then
    Except.error "rows and columns must be positive"
  else
    Except.ok { num_rows := rows, num_columns := columns }

/-- Construction with omitted parameters: the defaults `kDefaultRows` and
`kDefaultColumns` from `catch.h` are used. -/
def CatchGame.constructDefault : Except String CatchGame :=
  CatchGame.construct kDefaultRows kDefaultColumns

/-- The per-episode mutable fields of `CatchState`, from `catch.h`:
`initialized_ = false`, `ball_row_ = -1`, `ball_col_ = -1`,
`paddle_col_ = -1` (the declared in-class defaults; the constructor then
places the paddle, see `NewInitialState`). -/
structure CatchState where
  initialized : Bool
  ball_row : Int
  ball_col : Int
  paddle_col : Int
  deriving DecidableEq, Repr

/-- Modelled from the spec: the `CatchState` constructor leaves the state
uninitialized with the header's sentinel ball fields (-1), and sets
`paddle_col` "at construction to a fixed starting position (e.g. the
horizontal center) independent of the chance outcome"; the center column
`num_columns / 2` is used. -/
def NewInitialState (g : CatchGame) : CatchState :=
  { initialized := false
    ball_row := -1
    ball_col := -1
    paddle_col := g.num_columns / 2 }

/-- Modelled from the spec: `CatchState::IsTerminal` — "The episode is
terminal exactly when `ball_row` has reached the last row (`rows - 1`)
after a transition"; before the chance node resolves the state is a
chance node, hence not terminal. -/
def IsTerminal (g : CatchGame) (s : CatchState) : Bool :=
  s.initialized && s.ball_row == g.num_rows - 1

/-- Modelled from the spec: `CatchState::CurrentPlayer` — returns "chance"
while `initialized = false`, the single player identifier otherwise,
unless terminal (terminal states report a sentinel "no actor"). -/
def CurrentPlayer (g : CatchGame) (s : CatchState) : Int :=
  if IsTerminal g s then kTerminalPlayerId
  else if s.initialized = false then kChancePlayerId
  else 0

/-- Modelled from the spec: `CatchState::DoApplyAction` — at the chance
node set `ball_col` to the chosen column, `ball_row` to 0, `initialized`
to true, in a single atomic transition; at a player node adjust
`paddle_col` by -1, 0, or +1 according to the action (left/stay/right),
clamped to stay within `[0, columns-1]`, then increment `ball_row` by 1. -/
def DoApplyAction (g : CatchGame) (s : CatchState) (move : Int) : CatchState :=
  if s.initialized = false then
    { s with initialized := true, ball_row := 0, ball_col := move }
  else
    { s with
      paddle_col := min (max (s.paddle_col + (move - 1)) 0) (g.num_columns - 1)
      ball_row := s.ball_row + 1 }

/-- Modelled from the spec: `CatchState::UndoAction` — for a chance action
revert `initialized` to false and clear `ball_row`/`ball_col` (back to the
header's -1 sentinels); for a player action decrement `ball_row` by 1 and
reverse the paddle delta, the reverse being clamped to the board like the
forward move ("inverse of the clamped move"). -/
def UndoAction (g : CatchGame) (s : CatchState) (player : Int) (move : Int) :
    CatchState :=
  if player = kChancePlayerId then
    { s with initialized := false, ball_row := -1, ball_col := -1 }
  else
    { s with
      paddle_col := min (max (s.paddle_col - (move - 1)) 0) (g.num_columns - 1)
      ball_row := s.ball_row - 1 }

/-- Modelled from the spec: `CatchState::LegalActions` — chance node: the
full set of column indices `[0, columns-1]`; player node: all three
actions {left, stay, right}; terminal node: empty set. -/
def LegalActions (g : CatchGame) (s : CatchState) : List Int :=
  if IsTerminal g s then []
  else if s.initialized = false then
    (List.range g.num_columns.toNat).map (fun c => Int.ofNat c)
  else [0, 1, 2]

/-- Modelled from the spec: `CatchState::ChanceOutcomes` — at the chance
node, a discrete uniform distribution over the `columns` starting
positions, each with probability `1/columns`; empty when not at a chance
node. -/
def ChanceOutcomes (g : CatchGame) (s : CatchState) : List (Int × ℚ) :=
  if s.initialized = false then
    (List.range g.num_columns.toNat).map
      (fun c => (Int.ofNat c, 1 / (g.num_columns : ℚ)))
  else []

/-- Modelled from the spec: `CatchState::Returns` — zero for all
non-terminal states; at termination +1 if `paddle_col = ball_col` (caught)
and -1 otherwise (missed); single-player convention, one entry. -/
def Returns (g : CatchGame) (s : CatchState) : List ℚ :=
  if IsTerminal g s = false then [0]
  else if s.paddle_col = s.ball_col then [1] else [-1]

/-- Modelled from the spec: the framework entry point that applies an
action — "Applying an action when none is legal (e.g., at a terminal
state) is a contract violation and must be rejected": the transition is
taken only when the action is legal. -/
def ApplyAction (g : CatchGame) (s : CatchState) (move : Int) :
    Option CatchState :=
  if move ∈ LegalActions g s then some (DoApplyAction g s move) else none

/-- Modelled from the spec: `CatchState::BoardAt` — a per-cell query
returning one of {empty, ball, paddle}: the ball sits at
`(ball_row, ball_col)` and the paddle on the last row at
`(rows-1, paddle_col)`. -/
def BoardAt (g : CatchGame) (s : CatchState) (row col : Int) : CellState :=
  if s.ball_row == row && s.ball_col == col then CellState.kBall
  else if row == g.num_rows - 1 && s.paddle_col == col then CellState.kPaddle
  else CellState.kEmpty

/-- Modelled from the spec: `CatchState::ObservationAsNormalizedVector` —
a flattened row-major grid of length `rows × columns` marking the ball's
and paddle's positions (all other entries zero). -/
def ObservationAsNormalizedVector (g : CatchGame) (s : CatchState) : List ℚ :=
  (List.range (g.num_rows.toNat * g.num_columns.toNat)).map
    (fun i =>
      if BoardAt g s (Int.ofNat i / g.num_columns) (Int.ofNat i % g.num_columns)
          ≠ CellState.kEmpty
      then 1 else 0)

/-- Modelled from the spec:
`CatchState::InformationStateAsNormalizedVector` — a one-hot of the ball's
starting column (length `columns`) followed by a one-hot-per-row history
of which of the 3 actions was taken at each row reached so far (length
`3 × rows`, rows not yet reached all-zero).  The player-action history is
kept by the framework base class, so it is passed here explicitly. -/
def InformationStateAsNormalizedVector (g : CatchGame) (s : CatchState)
    (history : List Int) : List ℚ :=
  ((List.range g.num_columns.toNat).map
    (fun c => if s.ball_col == Int.ofNat c then 1 else 0)) ++
  ((List.range (kNumActions.toNat * g.num_rows.toNat)).map
    (fun i => if history.get? (i / 3) = some (Int.ofNat i % 3) then 1 else 0))

/-- The state invariant maintained along every episode: the paddle is on
the board, an uninitialized state still carries the header's -1 sentinels
for the ball, and an initialized state has the ball on the board. -/
abbrev WellFormed (g : CatchGame) (s : CatchState) : Prop :=
  0 ≤ s.paddle_col ∧ s.paddle_col ≤ g.num_columns - 1 ∧
  (s.initialized = false → s.ball_row = -1 ∧ s.ball_col = -1) ∧
  (s.initialized = true →
    0 ≤ s.ball_row ∧ s.ball_row ≤ g.num_rows - 1 ∧
    0 ≤ s.ball_col ∧ s.ball_col ≤ g.num_columns - 1)

/-- The default configuration: `rows = 10`, `columns = 5`. -/
def defaultGame : CatchGame :=
  { num_rows := kDefaultRows, num_columns := kDefaultColumns }

/-- C1: for every player action (left = 0, stay = 1, right = 2) applied to
an initialized, non-terminal state, `DoApplyAction` changes `paddle_col`
by -1, 0 or +1 respectively, clamped to remain within `[0, columns-1]`
(an edge move has no effect), and increments `ball_row` by exactly 1;
hence across every player transition `ball_row` increases by exactly 1 and
`paddle_col` changes by at most 1 while staying in range. -/
theorem player_action_descends_ball_and_clamps_paddle
    (g : CatchGame) (s : CatchState) (a : Int)
    (hinit : s.initialized = true) (hterm : IsTerminal g s = false)
    (hwf : WellFormed g s) (ha : a = 0 ∨ a = 1 ∨ a = 2) :
    (DoApplyAction g s a).ball_row = s.ball_row + 1 ∧
    (DoApplyAction g s a).paddle_col =
      min (max (s.paddle_col + (a - 1)) 0) (g.num_columns - 1) ∧
    (DoApplyAction g s a).paddle_col - s.paddle_col ≤ 1 ∧
    s.paddle_col - (DoApplyAction g s a).paddle_col ≤ 1 ∧
    0 ≤ (DoApplyAction g s a).paddle_col ∧
    (DoApplyAction g s a).paddle_col ≤ g.num_columns - 1 ∧
    (s.paddle_col = 0 → a = 0 → (DoApplyAction g s a).paddle_col = s.paddle_col) ∧
    (s.paddle_col = g.num_columns - 1 → a = 2 →
      (DoApplyAction g s a).paddle_col = s.paddle_col) := by
  obtain ⟨hp0, hp1, -, -⟩ := hwf
  rcases ha with h | h | h <;> subst h <;>
    simp [DoApplyAction, hinit] <;> omega

/-- Witness for C1 at the default game: from the initialized state with
the ball at (3, 1) and the paddle at column 0, the stay action advances
the ball one row. -/
theorem player_action_descends_ball_and_clamps_paddle_witness :
    WellFormed defaultGame (CatchState.mk true 3 1 0) ∧
    (DoApplyAction defaultGame (CatchState.mk true 3 1 0) 1).ball_row = 3 + 1 :=
  ⟨by decide,
    (player_action_descends_ball_and_clamps_paddle defaultGame
      (CatchState.mk true 3 1 0) 1 (by decide) (by decide) (by decide)
      (Or.inr (Or.inl rfl))).1⟩

/-- C2 counterexample: with `rows = 1` (a valid positive configuration),
applying the chance action 0 to a freshly constructed state puts the ball
on the last row at once, so the resulting state is terminal and
`CurrentPlayer` reports the terminal sentinel, not the single player. -/
theorem chance_action_actor_counterexample :
    CurrentPlayer (CatchGame.mk 1 1)
      (DoApplyAction (CatchGame.mk 1 1) (NewInitialState (CatchGame.mk 1 1)) 0)
      ≠ 0 := by decide

/-- C2 (amended): for every column value `c` in `[0, columns-1]`, applying
the chance action `c` to a freshly constructed (uninitialized) state sets
`ball_col = c`, `ball_row = 0` and `initialized = true` in a single
transition without advancing `ball_row` further in that call; provided
`rows ≥ 2`, afterwards `CurrentPlayer` reports the single player rather
than chance (when `rows = 1` the state is already terminal and the
terminal sentinel is reported instead). -/
theorem chance_action_places_ball_atomically
    (g : CatchGame) (c : Int)
    (hc : 0 ≤ c ∧ c ≤ g.num_columns - 1) (hr : 2 ≤ g.num_rows) :
    (DoApplyAction g (NewInitialState g) c).ball_col = c ∧
    (DoApplyAction g (NewInitialState g) c).ball_row = 0 ∧
    CatchState.initialized (DoApplyAction g (NewInitialState g) c) = true ∧
    CurrentPlayer g (DoApplyAction g (NewInitialState g) c) = 0 := by
  have h1 : ¬ ((0 : Int) = g.num_rows - 1) := by omega
  simp [DoApplyAction, NewInitialState, CurrentPlayer, IsTerminal, h1]

/-- Witness for C2 (amended) at the default game with chance outcome 3. -/
theorem chance_action_places_ball_atomically_witness :
    (DoApplyAction defaultGame (NewInitialState defaultGame) 3).ball_col = 3 ∧
    CurrentPlayer defaultGame
      (DoApplyAction defaultGame (NewInitialState defaultGame) 3) = 0 := by
  have h := chance_action_places_ball_atomically defaultGame 3
    (by decide) (by decide)
  exact ⟨h.1, h.2.2.2⟩

/-- C3: `IsTerminal` is true exactly when the state is initialized and
`ball_row` equals `rows - 1`; it is false for a freshly constructed state
and for every initialized state with `ball_row < rows - 1`, and no further
action is applied past a terminal state (the framework wrapper rejects
every action there). -/
theorem terminal_iff_ball_on_last_row
    (g : CatchGame) (s : CatchState) (a : Int) :
    (IsTerminal g s = true ↔
      s.initialized = true ∧ s.ball_row = g.num_rows - 1) ∧
    IsTerminal g (NewInitialState g) = false ∧
    (s.initialized = true → s.ball_row < g.num_rows - 1 →
      IsTerminal g s = false) ∧
    (IsTerminal g s = true → ApplyAction g s a = none) := by
  refine ⟨?_, ?_, ?_, ?_⟩
  · simp [IsTerminal]
  · simp [IsTerminal, NewInitialState]
  · intro h1 h2
    simp [IsTerminal, h1]
    omega
  · intro h
    simp [ApplyAction, LegalActions, h]

/-- Witness for C3 at the default game: the state with the ball on the
last row is terminal and every action is rejected there. -/
theorem terminal_iff_ball_on_last_row_witness :
    IsTerminal defaultGame (CatchState.mk true 9 2 2) = true ∧
    ApplyAction defaultGame (CatchState.mk true 9 2 2) 1 = none :=
  ⟨by decide,
    (terminal_iff_ball_on_last_row defaultGame
      (CatchState.mk true 9 2 2) 1).2.2.2 (by decide)⟩

/-- C4: `Returns` yields a vector with exactly one entry for every state:
0 for every non-terminal state; at a terminal state +1 if
`paddle_col = ball_col` and -1 otherwise, so every terminal return lies in
{-1, +1}, matching the game's declared `MinUtility` of -1 and
`MaxUtility` of +1. -/
theorem returns_single_entry_with_utility_bounds
    (g : CatchGame) (s : CatchState) :
    (Returns g s).length = 1 ∧
    (IsTerminal g s = false → Returns g s = [0]) ∧
    (IsTerminal g s = true → s.paddle_col = s.ball_col →
      Returns g s = [CatchGame.MaxUtility g]) ∧
    (IsTerminal g s = true → s.paddle_col ≠ s.ball_col →
      Returns g s = [CatchGame.MinUtility g]) ∧
    (IsTerminal g s = true →
      ∀ r ∈ Returns g s, r = CatchGame.MaxUtility g ∨
        r = CatchGame.MinUtility g) := by
  cases ht : IsTerminal g s with
  | false => simp [Returns, ht]
  | true =>
    by_cases he : s.paddle_col = s.ball_col <;>
      simp [Returns, ht, he, CatchGame.MaxUtility, CatchGame.MinUtility]

/-- Witness for C4 at the default game: a caught terminal state returns
the single entry `MaxUtility = +1`. -/
theorem returns_single_entry_with_utility_bounds_witness :
    Returns defaultGame (CatchState.mk true 9 2 2) =
      [CatchGame.MaxUtility defaultGame] :=
  (returns_single_entry_with_utility_bounds defaultGame
    (CatchState.mk true 9 2 2)).2.2.1 (by decide) (by decide)

/-- C5: applying an action and then undoing it with the same action value
restores `initialized`, `ball_row`, `ball_col` and `paddle_col` to their
prior values: always for the chance action on a well-formed uninitialized
state, and for every player action whose forward move was not clamped at a
paddle boundary (`paddle_col` at 0 moving left, or at `columns - 1` moving
right — the documented limitation). -/
theorem undo_action_inverts_apply_action
    (g : CatchGame) (s : CatchState) (a : Int) (hwf : WellFormed g s) :
    (s.initialized = false →
      UndoAction g (DoApplyAction g s a) kChancePlayerId a = s) ∧
    (s.initialized = true → (a = 0 ∨ a = 1 ∨ a = 2) →
      ¬(s.paddle_col = 0 ∧ a = 0) →
      ¬(s.paddle_col = g.num_columns - 1 ∧ a = 2) →
      UndoAction g (DoApplyAction g s a) 0 a = s) := by
  obtain ⟨hp0, hp1, hun, hin⟩ := hwf
  obtain ⟨init, br, bc, pc⟩ := s
  constructor
  · intro h
    subst h
    obtain ⟨h1, h2⟩ := hun rfl
    simp_all [UndoAction, DoApplyAction, kChancePlayerId]
  · intro h ha hcl hcr
    subst h
    rcases ha with h0 | h0 | h0 <;> subst h0 <;>
      simp_all [UndoAction, DoApplyAction, kChancePlayerId] <;> omega

/-- Witness for C5 at the default game: the chance action 2 applied to the
fresh state and then undone restores the fresh state exactly. -/
theorem undo_action_inverts_apply_action_witness :
    UndoAction defaultGame
      (DoApplyAction defaultGame (NewInitialState defaultGame) 2)
      kChancePlayerId 2 = NewInitialState defaultGame :=
  (undo_action_inverts_apply_action defaultGame
    (NewInitialState defaultGame) 2 (by decide)).1 (by decide)

/-- C6: `LegalActions` returns the full set of column indices
`[0, columns-1]` at the chance node, all three actions {left, stay, right}
at every non-terminal player node regardless of paddle position, and the
empty set at every terminal state. -/
theorem legal_actions_by_node_kind
    (g : CatchGame) (s : CatchState) (a : Int) :
    (s.initialized = false →
      (a ∈ LegalActions g s ↔ 0 ≤ a ∧ a < g.num_columns)) ∧
    (s.initialized = true → IsTerminal g s = false →
      LegalActions g s = [0, 1, 2]) ∧
    (IsTerminal g s = true → LegalActions g s = []) := by
  refine ⟨?_, ?_, ?_⟩
  · intro h
    have ht : IsTerminal g s = false := by simp [IsTerminal, h]
    have hLA : LegalActions g s =
        (List.range g.num_columns.toNat).map (fun c => Int.ofNat c) := by
      rw [LegalActions, ht, h]
      simp
    rw [hLA, List.mem_map]
    simp only [Int.ofNat_eq_natCast, List.mem_range]
    constructor
    · rintro ⟨c, hc, rfl⟩
      omega
    · intro hc
      refine ⟨a.toNat, ?_, ?_⟩ <;> omega
  · intro h ht
    simp [LegalActions, ht, h]
  · intro ht
    simp [LegalActions, ht]

/-- Witness for C6 at the default game: column 2 is a legal chance action
of the fresh state. -/
theorem legal_actions_by_node_kind_witness :
    (2 : Int) ∈ LegalActions defaultGame (NewInitialState defaultGame) :=
  ((legal_actions_by_node_kind defaultGame (NewInitialState defaultGame) 2).1
    rfl).mpr (by decide)

/-- C7: for every configuration with `rows > 0` and `columns > 0`, a
freshly constructed state is non-terminal and at the chance node, and
`ChanceOutcomes` returns exactly `columns` outcomes, one per starting
column in order, each with probability `1/columns`; the distribution is
empty when not at a chance node. -/
theorem fresh_state_uniform_chance_outcomes
    (g : CatchGame) (s : CatchState)
    (hr : 0 < g.num_rows) (hc : 0 < g.num_columns) :
    IsTerminal g (NewInitialState g) = false ∧
    CurrentPlayer g (NewInitialState g) = kChancePlayerId ∧
    (ChanceOutcomes g (NewInitialState g)).length = g.num_columns.toNat ∧
    (ChanceOutcomes g (NewInitialState g)).map Prod.fst =
      (List.range g.num_columns.toNat).map (fun c => Int.ofNat c) ∧
    (∀ p ∈ ChanceOutcomes g (NewInitialState g),
      p.2 = 1 / (g.num_columns : ℚ)) ∧
    (s.initialized = true → ChanceOutcomes g s = []) := by
  have hCO : ChanceOutcomes g (NewInitialState g) =
      (List.range g.num_columns.toNat).map
        (fun c => (Int.ofNat c, 1 / (g.num_columns : ℚ))) := rfl
  refine ⟨?_, ?_, ?_, ?_, ?_, ?_⟩
  · simp [IsTerminal, NewInitialState]
  · simp [CurrentPlayer, IsTerminal, NewInitialState]
  · rw [hCO, List.length_map, List.length_range]
  · rw [hCO, List.map_map]
    rfl
  · intro p hp
    rw [hCO, List.mem_map] at hp
    obtain ⟨c, -, rfl⟩ := hp
    rfl
  · intro h
    simp [ChanceOutcomes, h]

/-- Witness for C7 at the default game: the fresh state has exactly five
chance outcomes. -/
theorem fresh_state_uniform_chance_outcomes_witness :
    (ChanceOutcomes defaultGame (NewInitialState defaultGame)).length = 5 :=
  (fresh_state_uniform_chance_outcomes defaultGame
    (NewInitialState defaultGame) (by decide) (by decide)).2.2.1

/-- C8: constructing a `CatchGame` with a non-positive `rows` or `columns`
parameter fails at construction time with an error reported to the caller
(never clamped: the successful case keeps the exact values), and
construction with omitted parameters uses the defaults `rows = 10`,
`columns = 5` and succeeds. -/
theorem construct_rejects_nonpositive_geometry
    (rows columns : Int) :
    (rows ≤ 0 ∨ columns ≤ 0 →
      CatchGame.construct rows columns =
        Except.error "rows and columns must be positive") ∧
    (0 < rows → 0 < columns →
      CatchGame.construct rows columns =
        Except.ok { num_rows := rows, num_columns := columns }) ∧
    CatchGame.constructDefault =
      Except.ok { num_rows := 10, num_columns := 5 } := by
  refine ⟨?_, ?_, rfl⟩
  · intro h
    simp [CatchGame.construct, h]
  · intro h1 h2
    rw [CatchGame.construct, if_neg (by omega)]

/-- Witness for C8: `rows = 0` is rejected at construction. -/
theorem construct_rejects_nonpositive_geometry_witness :
    CatchGame.construct 0 5 =
      Except.error "rows and columns must be positive" :=
  (construct_rejects_nonpositive_geometry 0 5).1 (Or.inl (by decide))

/-- C9: for every configuration, the flattened observation vector has
length `rows × columns` (the product of the declared observation shape)
and the information-state vector has length `columns + 3 × rows` (the
declared information-state shape), while `MaxGameLength` equals `rows` and
`MaxChanceOutcomes` equals `columns`. -/
theorem vector_shapes_and_game_bounds
    (g : CatchGame) (s : CatchState) (history : List Int)
    (hr : 0 < g.num_rows) (hc : 0 < g.num_columns) :
    (CatchGame.ObservationNormalizedVectorShape g).prod =
      g.num_rows * g.num_columns ∧
    CatchGame.InformationStateNormalizedVectorShape g =
      [g.num_columns + 3 * g.num_rows] ∧
    ((ObservationAsNormalizedVector g s).length : Int) =
      g.num_rows * g.num_columns ∧
    ((InformationStateAsNormalizedVector g s history).length : Int) =
      g.num_columns + 3 * g.num_rows ∧
    CatchGame.MaxGameLength g = g.num_rows ∧
    CatchGame.MaxChanceOutcomes g = g.num_columns := by
  refine ⟨?_, ?_, ?_, ?_, rfl, rfl⟩
  · simp [CatchGame.ObservationNormalizedVectorShape]
  · simp [CatchGame.InformationStateNormalizedVectorShape, kNumActions]
  · simp only [ObservationAsNormalizedVector, List.length_map,
      List.length_range]
    push_cast
    rw [Int.toNat_of_nonneg hr.le, Int.toNat_of_nonneg hc.le]
  · simp only [InformationStateAsNormalizedVector, List.length_append,
      List.length_map, List.length_range, kNumActions]
    push_cast
    rw [Int.toNat_of_nonneg hr.le, Int.toNat_of_nonneg hc.le]

/-- Witness for C9 at the default game: observation length 50 = 10 × 5 and
information-state length 35 = 5 + 3 × 10. -/
theorem vector_shapes_and_game_bounds_witness :
    ((ObservationAsNormalizedVector defaultGame
        (NewInitialState defaultGame)).length : Int) = 50 ∧
    ((InformationStateAsNormalizedVector defaultGame
        (NewInitialState defaultGame) []).length : Int) = 35 := by
  have h := vector_shapes_and_game_bounds defaultGame
    (NewInitialState defaultGame) [] (by decide) (by decide)
  exact ⟨h.2.2.1, h.2.2.2.1⟩

/-- C10: in every freshly constructed episode state, `paddle_col` already
holds the fixed starting position `columns / 2` (the horizontal center),
which is a valid column in `[0, columns-1]`, and the chance transition
leaves it unchanged whatever outcome is drawn, so the start is independent
of the chance outcome. -/
theorem paddle_starts_centered_and_fixed
    (g : CatchGame) (c : Int) (hc : 0 < g.num_columns) :
    (NewInitialState g).paddle_col = g.num_columns / 2 ∧
    0 ≤ (NewInitialState g).paddle_col ∧
    (NewInitialState g).paddle_col ≤ g.num_columns - 1 ∧
    (DoApplyAction g (NewInitialState g) c).paddle_col =
      (NewInitialState g).paddle_col := by
  refine ⟨rfl, ?_, ?_, ?_⟩
  · simp only [NewInitialState]
    omega
  · simp only [NewInitialState]
    omega
  · simp [DoApplyAction, NewInitialState]

/-- Witness for C10 at the default game with chance outcome 4: the paddle
starts at the center column 2 and keeps it through the chance move. -/
theorem paddle_starts_centered_and_fixed_witness :
    (NewInitialState defaultGame).paddle_col = 2 ∧
    (DoApplyAction defaultGame (NewInitialState defaultGame) 4).paddle_col =
      (NewInitialState defaultGame).paddle_col := by
  have h := paddle_starts_centered_and_fixed defaultGame 4 (by decide)
  exact ⟨h.1, h.2.2.2⟩

end Catch
end OpenSpiel
